import Mathlib

/-!
Shallow embedding of the leo-telcecon server (src/server.js: two near-identical
Express applications sharing the same authentication middleware, login/signup
handlers and payments-listing handler).  Pure Lean functions model the handlers;
the relational store is modelled as explicit lists of rows, the JWT library and
bcrypt as abstract function parameters, and `process.env` values as `Option
String` (with JS truthiness made explicit).
-/

set_option maxRecDepth 4096

/-- JS truthiness of an optional string value: `undefined` and `""` are falsy,
every other string is truthy. -/
def jsTruthy : Option String → Bool
  | none => false
  | some s => !(s == "")

/-- Split a character list at every occurrence of `sep`, keeping empty pieces,
exactly like JavaScript `String.prototype.split` with a one-character separator. -/
def splitCharsOn (sep : Char) : List Char → List (List Char)
  | [] => [[]]
  | c :: cs =>
    if c == sep then [] :: splitCharsOn sep cs
    else
      match splitCharsOn sep cs with
      | [] => [[c]]
      | r :: rs => (c :: r) :: rs

/-- JavaScript `s.split(sep)` for a single-character separator. -/
def jsSplit (s : String) (sep : Char) : List String :=
  (splitCharsOn sep s.data).map (fun cs => String.mk cs)

/-- Token extraction of the middleware:
`req.headers['authorization']?.split(' ')[1]` (src/server.js line 50 / 368).
`none` stands for JS `undefined` (header absent, or fewer than two words). -/
def extractToken (authHeader : Option String) : Option String :=
  authHeader.bind fun h => (jsSplit h ' ').get? 1

/-- Outcome of the `authenticateToken` middleware: the JSON error responses it
sends, or the pass-through to the route handler with the decoded user attached. -/
inductive AuthOutcome where
  | unauthorized : String → AuthOutcome
  | forbidden : String → AuthOutcome
  | proceed : String → AuthOutcome
  deriving DecidableEq, Repr

/-- The `authenticateToken` middleware (src/server.js lines 49–61 / 367–379).
`verify` models `jwt.verify token process.env.JWT_SECRET`: `some decoded` when
the callback receives no error, `none` when it receives one.  `revokedTokens`
models the module-level `Set`. -/
def authenticateToken (verify : String → Option String) (revokedTokens : List String)
    (authHeader : Option String) : AuthOutcome :=
  let token := extractToken authHeader
  if !(jsTruthy token) then .unauthorized "Token não fornecido"
  else
    let t := token.getD ""
    if revokedTokens.contains t then .forbidden "Sessão expirada. Faça login novamente."
    else
      match verify t with
      | none => .forbidden "Token inválido ou expirado"
      | some decoded => .proceed decoded

/-- The POST /logout handler body (src/server.js lines 191–194 / 428–431):
`revokedTokens.add(req.headers['authorization']?.split(' ')[1])`, returning the
new set.  JS `Set.add` is idempotent; the middleware in front of this handler
guarantees the extracted token is a truthy string, so the `none` case (adding
`undefined` to the set, which no string token can ever equal) is a no-op here. -/
def logout (revokedTokens : List String) (authHeader : Option String) : List String :=
  match extractToken authHeader with
  | none => revokedTokens
  | some t => if revokedTokens.contains t then revokedTokens else revokedTokens ++ [t]

/-- A row of the `usuarios` table. -/
structure Usuario where
  id : Nat
  username : String
  password_hash : String
  email : Option String
  deriving DecidableEq, Repr

/-- Response of a login handler: HTTP status plus body payload. -/
inductive LoginResult where
  | badRequest : String → LoginResult
  | unauthorized : String → LoginResult
  | serverError : String → LoginResult
  | okToken : String → LoginResult
  deriving DecidableEq, Repr

/-- The POST /login handler of the first application (src/server.js lines
105–157).  `compare` models `bcrypt.compare`, `sign` models `jwt.sign` (secret,
user id ↦ token).  `username`/`password` are the JSON body fields (`none` when
absent), `jwtSecret` is `process.env.JWT_SECRET`.  The SELECT by username is
modelled by `find?` (first matching row). -/
def login (compare : String → String → Bool) (sign : String → Nat → String)
    (usuarios : List Usuario) (jwtSecret : Option String)
    (username password : Option String) : LoginResult :=
  if !(jsTruthy username) || !(jsTruthy password) then
    .badRequest "Usuário e senha são obrigatórios"
  else
    match usuarios.find? (fun u => u.username == username.getD "") with
    | none => .unauthorized "Credenciais inválidas"
    | some user =>
      if !(compare (password.getD "") user.password_hash) then
        .unauthorized "Credenciais inválidas"
      else if !(jsTruthy jwtSecret) then
        .serverError "Erro interno de configuração"
      else
        .okToken (sign (jwtSecret.getD "") user.id)

/-- The POST /login handler of the second application (src/server.js lines
401–426).  It has no missing-field validation: an absent `username` is bound as
SQL NULL, and `username = NULL` selects no rows, so the handler answers 401; an
absent `password` makes `bcrypt.compare` raise (caught, 500 "Erro no login");
an absent signing secret makes `jwt.sign` raise (caught, 500 "Erro no login"). -/
def login2 (compare : String → String → Bool) (sign : String → Nat → String)
    (usuarios : List Usuario) (jwtSecret : Option String)
    (username password : Option String) : LoginResult :=
  let rows : List Usuario := match username with
    | none => []
    | some u => usuarios.filter (fun x => x.username == u)
  match rows with
  | [] => .unauthorized "Credenciais inválidas"
  | user :: _ =>
    match password with
    | none => .serverError "Erro no login"
    | some p =>
      if !(compare p user.password_hash) then .unauthorized "Credenciais inválidas"
      else
        match jwtSecret with
        | none => .serverError "Erro no login"
        | some s => .okToken (sign s user.id)

/-- Response of the signup handler. -/
inductive SignupResult where
  | conflict : String → SignupResult
  | created : Nat → SignupResult
  | serverError : String → SignupResult
  deriving DecidableEq, Repr

/-- The POST /signup handler (src/server.js lines 86–103 / 382–399): an
existence check (`rowCount > 0` → 400 "Usuário já existe"), then the INSERT.
`hash` models `bcrypt.hash · 10`; `newId` is the id the store assigns to the
inserted row.  Returns the response together with the usuarios table after the
request. -/
def signup (hash : String → String) (newId : Nat) (usuarios : List Usuario)
    (username password : String) (email : Option String) : SignupResult × List Usuario :=
  if (usuarios.filter (fun u => u.username == username)).length > 0 then
    (.conflict "Usuário já existe", usuarios)
  else
    (.created newId, usuarios ++ [⟨newId, username, hash password, email⟩])

/-- A row of the `clientes` table. -/
structure Cliente where
  id : Nat
  nome : String
  whatsapp : String
  vencimento : String
  plano : String
  endereco : String
  deriving DecidableEq, Repr

/-- Response of the create-customer handler. -/
inductive ClienteResult where
  | conflict : String → ClienteResult
  | created : Cliente → ClienteResult
  | serverError : String → ClienteResult
  deriving DecidableEq, Repr

/-- The POST /clientes handler (src/server.js lines 241–258 / 469–486).  The
store enforces the whatsapp uniqueness invariant (spec §3) and signals a
violating INSERT with error code 23505; the handler maps exactly that code to
400 "WhatsApp já cadastrado" and any other store error to 500.  Returns the
response together with the clientes table after the request. -/
def createCliente (newId : Nat) (clientes : List Cliente)
    (nome whatsapp vencimento plano endereco : String) : ClienteResult × List Cliente :=
  if clientes.any (fun c => c.whatsapp == whatsapp) then
    (.conflict "WhatsApp já cadastrado", clientes)
  else
    let c : Cliente := ⟨newId, nome, whatsapp, vencimento, plano, endereco⟩
    (.created c, clientes ++ [c])

/-- The query text / bound-parameter pair handed to `pool.query`. -/
structure BuiltQuery where
  text : String
  params : List String
  deriving DecidableEq, Repr

/-- The query construction of GET /clientes/:id/pagamentos (src/server.js lines
271–293 / 499–521), transcribed statement by statement: start from the base
predicate with `params = [id]` and `paramIndex = 2`, append each clause and push
its value only when the query field is truthy, then append the ORDER BY. -/
def buildPagamentosQuery (id : String) (status year month : Option String) : BuiltQuery :=
  let query := "SELECT * FROM pagamentos WHERE cliente_id = $1"
  let params := [id]
  let paramIndex := 2
  let (query, params, paramIndex) :=
    if jsTruthy status then
      (query ++ " AND status = $" ++ toString paramIndex, params ++ [status.getD ""], paramIndex + 1)
    else (query, params, paramIndex)
  let (query, params, paramIndex) :=
    if jsTruthy year then
      (query ++ " AND EXTRACT(YEAR FROM data_vencimento) = $" ++ toString paramIndex,
       params ++ [year.getD ""], paramIndex + 1)
    else (query, params, paramIndex)
  let (query, params) :=
    if jsTruthy month then
      (query ++ " AND EXTRACT(MONTH FROM data_vencimento) = $" ++ toString paramIndex,
       params ++ [month.getD ""])
    else (query, params)
  ⟨query ++ " ORDER BY data_vencimento DESC", params⟩

/-- Query text as the spec describes it: the base predicate, then the status,
year and month clauses in that fixed order, each present exactly when its
filter is, with positional placeholders numbered consecutively, and the
descending ORDER BY at the end.  A function of the three presence bits only —
no filter VALUE can reach the text. -/
def queryTextSpec (s y m : Bool) : String :=
  "SELECT * FROM pagamentos WHERE cliente_id = $1"
  ++ (if s then " AND status = $2" else "")
  ++ (if y then " AND EXTRACT(YEAR FROM data_vencimento) = $"
            ++ toString (2 + (if s then 1 else 0)) else "")
  ++ (if m then " AND EXTRACT(MONTH FROM data_vencimento) = $"
            ++ toString (2 + (if s then 1 else 0) + (if y then 1 else 0)) else "")
  ++ " ORDER BY data_vencimento DESC"

/-- Bound parameters as the spec describes them: the customer id, then the
values of the present filters in the fixed order status, year, month. -/
def queryParamsSpec (id : String) (status year month : Option String) : List String :=
  [id] ++ (if jsTruthy status then [status.getD ""] else [])
       ++ (if jsTruthy year then [year.getD ""] else [])
       ++ (if jsTruthy month then [month.getD ""] else [])

/-- A calendar date, as stored in the `data_vencimento` column. -/
structure DueDate where
  year : Nat
  month : Nat
  day : Nat
  deriving DecidableEq, Repr

/-- Calendar order on due dates (lexicographic on year, month, day). -/
def dateLe (a b : DueDate) : Bool :=
  Nat.blt a.year b.year
  || (a.year == b.year
      && (Nat.blt a.month b.month
          || (a.month == b.month && Nat.ble a.day b.day)))

/-- A row of the `pagamentos` table. -/
structure Pagamento where
  id : Nat
  cliente_id : Nat
  valor : Int
  data_vencimento : DueDate
  referencia : String
  status : String
  deriving DecidableEq, Repr

/-- `ORDER BY data_vencimento DESC`: row `p` may precede row `q` when `q`'s due
date is at most `p`'s. -/
def dueDesc (p q : Pagamento) : Bool :=
  dateLe q.data_vencimento p.data_vencimento

/-- The descending due-date order as a relation on rows. -/
def dueDescRel (p q : Pagamento) : Prop := dueDesc p q = true

instance : DecidableRel dueDescRel := fun p q => Bool.decEq (dueDesc p q) true

instance : IsTotal Pagamento dueDescRel :=
  ⟨fun p q => by
    simp only [dueDescRel, dueDesc, dateLe, Bool.or_eq_true, Bool.and_eq_true,
      Nat.blt_eq, Nat.ble_eq, beq_iff_eq]
    omega⟩

instance : IsTrans Pagamento dueDescRel :=
  ⟨fun p q r h1 h2 => by
    simp only [dueDescRel, dueDesc, dateLe, Bool.or_eq_true, Bool.and_eq_true,
      Nat.blt_eq, Nat.ble_eq, beq_iff_eq] at *
    omega⟩

/-- WHERE clause of the filtered pagamentos SELECT: the base `cliente_id = $1`
predicate AND the optional `status =`, `EXTRACT(YEAR FROM data_vencimento) =`,
`EXTRACT(MONTH FROM data_vencimento) =` equality clauses (`none` = clause
absent). -/
def rowMatches (cid : Nat) (status : Option String) (year month : Option Nat)
    (p : Pagamento) : Bool :=
  p.cliente_id == cid
  && (match status with | none => true | some s => p.status == s)
  && (match year with | none => true | some y => p.data_vencimento.year == y)
  && (match month with | none => true | some m => p.data_vencimento.month == m)

/-- Relational semantics of the query built at src/server.js lines 271–293 over
a pagamentos table: rows satisfying the WHERE clause, ordered by due date
descending. -/
def runPagamentosQuery (pagamentos : List Pagamento) (cid : Nat)
    (status : Option String) (year month : Option Nat) : List Pagamento :=
  (pagamentos.filter (rowMatches cid status year month)).insertionSort dueDescRel

/-- Response of GET /clientes/:id/pagamentos. -/
inductive PagamentosResponse where
  | notFound : String → PagamentosResponse
  | rows : List Pagamento → PagamentosResponse
  deriving DecidableEq, Repr

/-- The GET /clientes/:id/pagamentos handler (src/server.js lines 261–307 /
489–535): first `SELECT 1 FROM clientes WHERE id = $1`; on `rowCount === 0`
answer 404 "Cliente não encontrado"; only otherwise build and run the filtered
query.  A truthy status / year / month query field corresponds to `some` of its
value in the WHERE clause. -/
def getPagamentos (clientes : List Cliente) (pagamentos : List Pagamento) (cid : Nat)
    (status : Option String) (year month : Option Nat) : PagamentosResponse :=
  if (clientes.filter (fun c => c.id == cid)).length == 0 then
    .notFound "Cliente não encontrado"
  else
    .rows (runPagamentosQuery pagamentos cid status year month)

/-! Helper lemmas. -/

theorem jsTruthy_some_of_ne {t : String} (hne : t ≠ "") : jsTruthy (some t) = true := by
  simp [jsTruthy, hne]

theorem contains_logout_self {revokedTokens : List String} {authHeader : Option String} {t : String}
    (h : extractToken authHeader = some t) : (logout revokedTokens authHeader).contains t = true := by
  unfold logout
  rw [h]
  by_cases hc : t ∈ revokedTokens
  · simp [hc]
  · simp [hc]

theorem contains_logout_mono {revokedTokens : List String} {authHeader : Option String} {t : String}
    (h : revokedTokens.contains t = true) : (logout revokedTokens authHeader).contains t = true := by
  unfold logout
  have hm : t ∈ revokedTokens := by simpa using h
  cases extractToken authHeader with
  | none => exact h
  | some u => by_cases hc : u ∈ revokedTokens <;> simp [hc, hm]

theorem contains_foldl_logout {t : String} (later : List (Option String)) :
    ∀ revokedTokens : List String, revokedTokens.contains t = true →
      (later.foldl logout revokedTokens).contains t = true := by
  induction later with
  | nil => intro R h; exact h
  | cons hd tl ih => intro R h; exact ih _ (contains_logout_mono h)

/-! Claim theorems. -/

/-- C1.  The Auth Guard's outcome, checked in order: no extractable truthy
token → 401 "Token não fornecido"; else a revoked token → 403 "Sessão
expirada. Faça login novamente." without consulting token verification (the
outcome is the same for every verify function); else failed verification →
403 "Token inválido ou expirado"; else the decoded identity is attached and
the handler proceeds. -/
theorem authenticateToken_cases (verify : String → Option String)
    (revokedTokens : List String) (authHeader : Option String) :
    (jsTruthy (extractToken authHeader) = false →
      authenticateToken verify revokedTokens authHeader = .unauthorized "Token não fornecido")
    ∧ (∀ t, extractToken authHeader = some t → t ≠ "" →
        revokedTokens.contains t = true →
        authenticateToken verify revokedTokens authHeader
            = .forbidden "Sessão expirada. Faça login novamente."
          ∧ ∀ verify2 : String → Option String,
              authenticateToken verify2 revokedTokens authHeader
                = authenticateToken verify revokedTokens authHeader)
    ∧ (∀ t, extractToken authHeader = some t → t ≠ "" →
        revokedTokens.contains t = false → verify t = none →
        authenticateToken verify revokedTokens authHeader
          = .forbidden "Token inválido ou expirado")
    ∧ (∀ t u, extractToken authHeader = some t → t ≠ "" →
        revokedTokens.contains t = false → verify t = some u →
        authenticateToken verify revokedTokens authHeader = .proceed u) := by
  refine ⟨fun hf => ?_, fun t hx hne hrev => ?_, fun t hx hne hrev hv => ?_,
    fun t u hx hne hrev hv => ?_⟩
  · simp [authenticateToken, hf]
  · have hm : t ∈ revokedTokens := by simpa using hrev
    constructor
    · simp [authenticateToken, hx, jsTruthy_some_of_ne hne, hm]
    · intro verify2
      simp [authenticateToken, hx, jsTruthy_some_of_ne hne, hm]
  · have hm : t ∉ revokedTokens := by simpa using hrev
    simp [authenticateToken, hx, jsTruthy_some_of_ne hne, hm, hv]
  · have hm : t ∉ revokedTokens := by simpa using hrev
    simp [authenticateToken, hx, jsTruthy_some_of_ne hne, hm, hv]

/-- Witness for C1: header "Bearer tok" with "tok" unrevoked and verifying to
"user1" proceeds with that identity. -/
theorem authenticateToken_cases_witness :
    authenticateToken (fun t => if t == "tok" then some "user1" else none) [] (some "Bearer tok")
      = .proceed "user1" :=
  (authenticateToken_cases _ _ _).2.2.2 "tok" "user1" (by decide) (by decide) (by decide) (by decide)

/-- C2.  Once a logout request revokes a token, every later Auth Guard check
of that exact token string answers 403 "Sessão expirada. Faça login
novamente." — whatever further logouts happen in between (the set only grows
for the life of the process) and for every verify function, in particular when
verification would still succeed. -/
theorem logout_revokes_token (verify : String → Option String) (revokedTokens : List String)
    (t : String) (logoutHeader : Option String) (later : List (Option String))
    (checkHeader : Option String)
    (h1 : extractToken logoutHeader = some t)
    (h2 : extractToken checkHeader = some t) (hne : t ≠ "") :
    authenticateToken verify (later.foldl logout (logout revokedTokens logoutHeader)) checkHeader
      = .forbidden "Sessão expirada. Faça login novamente." := by
  have hmem : (later.foldl logout (logout revokedTokens logoutHeader)).contains t = true :=
    contains_foldl_logout later _ (contains_logout_self h1)
  have hm : t ∈ later.foldl logout (logout revokedTokens logoutHeader) := by simpa using hmem
  simp [authenticateToken, h2, jsTruthy_some_of_ne hne, hm]

/-- Witness for C2: revoking "tok" then checking "Bearer tok" under a verify
function that still accepts "tok" yields the 403 session-expired response. -/
theorem logout_revokes_token_witness :
    authenticateToken (fun t => if t == "tok" then some "user1" else none)
        ([].foldl logout (logout [] (some "Bearer tok"))) (some "Bearer tok")
      = .forbidden "Sessão expirada. Faça login novamente." :=
  logout_revokes_token _ [] "tok" (some "Bearer tok") [] (some "Bearer tok")
    (by decide) (by decide) (by decide)

/-- C3.  The payments-listing query is the base predicate `cliente_id = $1`
with the status, year and month clauses appended (AND, in that fixed order)
exactly when the corresponding request field is truthy, ending in
`ORDER BY data_vencimento DESC`; the bound parameters are the id followed by
the present filter values in the same order; and the query text is a function
of the presence bits alone, so no filter value is ever concatenated into the
text. -/
theorem buildPagamentosQuery_spec (id : String) (status year month : Option String) :
    (buildPagamentosQuery id status year month).text
        = queryTextSpec (jsTruthy status) (jsTruthy year) (jsTruthy month)
    ∧ (buildPagamentosQuery id status year month).params
        = queryParamsSpec id status year month
    ∧ ∀ (id2 : String) (status2 year2 month2 : Option String),
        jsTruthy status2 = jsTruthy status → jsTruthy year2 = jsTruthy year →
        jsTruthy month2 = jsTruthy month →
        (buildPagamentosQuery id2 status2 year2 month2).text
          = (buildPagamentosQuery id status year month).text := by
  have key : ∀ (i : String) (s y m : Option String),
      (buildPagamentosQuery i s y m).text = queryTextSpec (jsTruthy s) (jsTruthy y) (jsTruthy m)
      ∧ (buildPagamentosQuery i s y m).params = queryParamsSpec i s y m := by
    intro i s y m
    unfold buildPagamentosQuery queryTextSpec queryParamsSpec
    cases jsTruthy s <;> cases jsTruthy y <;> cases jsTruthy m <;>
      simp [String.append_assoc, List.append_assoc] <;> decide
  refine ⟨(key id status year month).1, (key id status year month).2, ?_⟩
  intro id2 status2 year2 month2 hs hy hm
  rw [(key id2 status2 year2 month2).1, (key id status year month).1, hs, hy, hm]

/-- Witness for C3: with status and month present and year absent the text has
the two clauses in order with placeholders $2 and $3, and value-equal presence
patterns share the same text. -/
theorem buildPagamentosQuery_spec_witness :
    (buildPagamentosQuery "7" (some "pago") none (some "3")).text
        = queryTextSpec true false true
      ∧ (buildPagamentosQuery "9" (some "x") none (some "y")).text
        = (buildPagamentosQuery "7" (some "pago") none (some "3")).text :=
  ⟨(buildPagamentosQuery_spec "7" (some "pago") none (some "3")).1,
   (buildPagamentosQuery_spec "7" (some "pago") none (some "3")).2.2 "9" (some "x") none (some "y")
     (by decide) (by decide) (by decide)⟩

/-- C4.  Query-result algebra: with no filters the result is exactly the
customer's payments (a permutation of the rows whose `cliente_id` matches)
ordered by due date descending; every row of the status-filtered result is in
the unfiltered result and carries the filtered status; and the result with
status, year and month all applied is a subset of the status-only result. -/
theorem pagamentos_filters_narrow (pagamentos : List Pagamento) (cid : Nat)
    (s : String) (y m : Nat) :
    (runPagamentosQuery pagamentos cid none none none).Perm
        (pagamentos.filter (fun p => p.cliente_id == cid))
    ∧ (runPagamentosQuery pagamentos cid none none none).Sorted dueDescRel
    ∧ (∀ p, p ∈ runPagamentosQuery pagamentos cid (some s) none none →
        p ∈ runPagamentosQuery pagamentos cid none none none ∧ p.status = s)
    ∧ (∀ p, p ∈ runPagamentosQuery pagamentos cid (some s) (some y) (some m) →
        p ∈ runPagamentosQuery pagamentos cid (some s) none none) := by
  have hfe : pagamentos.filter (rowMatches cid none none none)
      = pagamentos.filter (fun p => p.cliente_id == cid) :=
    List.filter_congr (fun p _ => by simp [rowMatches])
  refine ⟨?_, ?_, ?_, ?_⟩
  · unfold runPagamentosQuery
    rw [hfe]
    exact List.perm_insertionSort dueDescRel _
  · exact List.sorted_insertionSort dueDescRel _
  · intro p hp
    simp only [runPagamentosQuery, List.mem_insertionSort, List.mem_filter, rowMatches,
      Bool.and_eq_true, beq_iff_eq] at hp ⊢
    tauto
  · intro p hp
    simp only [runPagamentosQuery, List.mem_insertionSort, List.mem_filter, rowMatches,
      Bool.and_eq_true, beq_iff_eq] at hp ⊢
    tauto

/-- Witness for C4: a two-row table for customer 1 where only the first row has
status "pago"; that row is in the status-filtered result, hence in the
unfiltered result with status "pago". -/
theorem pagamentos_filters_narrow_witness :
    (⟨10, 1, 50, ⟨2025, 1, 10⟩, "jan", "pago"⟩ : Pagamento)
        ∈ runPagamentosQuery
            [⟨10, 1, 50, ⟨2025, 1, 10⟩, "jan", "pago"⟩,
             ⟨11, 1, 50, ⟨2025, 2, 10⟩, "fev", "aberto"⟩] 1 none none none
      ∧ (⟨10, 1, 50, ⟨2025, 1, 10⟩, "jan", "pago"⟩ : Pagamento).status = "pago" :=
  (pagamentos_filters_narrow
      [⟨10, 1, 50, ⟨2025, 1, 10⟩, "jan", "pago"⟩,
       ⟨11, 1, 50, ⟨2025, 2, 10⟩, "fev", "aberto"⟩] 1 "pago" 0 0).2.2.1 _ (by decide)

/-- C5.  When no customer row has the requested id, the payments listing
answers 404 "Cliente não encontrado", the outcome does not depend on the
pagamentos table (the filtered query is never run), and the response is never
a 200 row list — in particular never an empty list. -/
theorem getPagamentos_notFound (clientes : List Cliente) (pagamentos : List Pagamento)
    (cid : Nat) (status : Option String) (year month : Option Nat)
    (habs : ∀ c ∈ clientes, c.id ≠ cid) :
    getPagamentos clientes pagamentos cid status year month
        = .notFound "Cliente não encontrado"
    ∧ (∀ pagamentos2 : List Pagamento,
        getPagamentos clientes pagamentos2 cid status year month
          = getPagamentos clientes pagamentos cid status year month)
    ∧ ∀ rs : List Pagamento,
        getPagamentos clientes pagamentos cid status year month ≠ .rows rs := by
  have hf : clientes.filter (fun c => c.id == cid) = [] := by
    rw [List.filter_eq_nil_iff]
    intro c hc
    simpa using habs c hc
  refine ⟨by simp [getPagamentos, hf], fun pagamentos2 => by simp [getPagamentos, hf],
    fun rs => by simp [getPagamentos, hf]⟩

/-- Witness for C5: a one-customer table without id 2; listing id 2's payments
over a nonempty pagamentos table answers 404. -/
theorem getPagamentos_notFound_witness :
    getPagamentos [⟨1, "Ana", "559999", "10", "basic", "Rua A"⟩]
        [⟨10, 2, 50, ⟨2025, 1, 10⟩, "jan", "pago"⟩] 2 (some "pago") none none
      = .notFound "Cliente não encontrado" :=
  (getPagamentos_notFound _ _ _ _ _ _ (by decide)).1

/-- C6 counterexample.  With valid credentials and no signing secret, the login
handler serves a normal 500 response ("Erro interno de configuração",
src/server.js line 141) and keeps the process alive — it does not halt.  (Only
the startup store check at src/server.js line 27 calls `process.exit`.) -/
theorem login_missing_secret_counterexample :
    login (fun _ _ => true) (fun _ _ => "signed") [⟨1, "ana", "h", none⟩] none
        (some "ana") (some "secret1")
      = .serverError "Erro interno de configuração" := by decide

/-- C6 amended.  If the signing secret is absent when token issuance is
needed, neither login handler ever issues a token (the second raises inside
`jwt.sign` and answers 500 "Erro no login"), and the first handler answers 500
"Erro interno de configuração" on otherwise-valid credentials; the process
keeps serving traffic. -/
theorem login_no_secret_no_token (compare : String → String → Bool) (sign : String → Nat → String)
    (usuarios : List Usuario) (jwtSecret : Option String) (username password : Option String)
    (hsec : jsTruthy jwtSecret = false) :
    (∀ tok, login compare sign usuarios jwtSecret username password ≠ .okToken tok)
    ∧ (∀ tok, login2 compare sign usuarios none username password ≠ .okToken tok)
    ∧ (∀ u : Usuario, jsTruthy username = true → jsTruthy password = true →
        usuarios.find? (fun x => x.username == username.getD "") = some u →
        compare (password.getD "") u.password_hash = true →
        login compare sign usuarios jwtSecret username password
          = .serverError "Erro interno de configuração") := by
  refine ⟨?_, ?_, ?_⟩
  · intro tok
    simp only [login]
    split
    · simp
    · split
      · simp
      · split
        · simp
        · simp [hsec]
  · intro tok
    simp only [login2]
    split
    · simp
    · split
      · simp
      · split
        · simp
        · simp
  · intro u hu hp hf hcmp
    simp [login, hu, hp, hf, hcmp, hsec]

/-- Witness for C6 amended: valid credentials, absent secret, 500 response. -/
theorem login_no_secret_no_token_witness :
    login (fun _ _ => true) (fun _ _ => "t") [⟨1, "ana", "h", none⟩] none
        (some "ana") (some "pw")
      = .serverError "Erro interno de configuração" :=
  (login_no_secret_no_token _ _ _ _ _ _ (by decide)).2.2 ⟨1, "ana", "h", none⟩
    (by decide) (by decide) (by decide) (by decide)

/-- C7.  A signup reusing an existing username answers the distinct conflict
response 400 "Usuário já existe" (not a 500), leaving the usuarios table
unchanged; a customer creation reusing an existing whatsapp number answers the
distinct conflict response 400 "WhatsApp já cadastrado" (not a 500), leaving
the clientes table unchanged. -/
theorem uniqueness_conflict (hash : String → String) (newId : Nat)
    (usuarios : List Usuario) (username password : String) (email : Option String)
    (cid : Nat) (clientes : List Cliente) (nome whatsapp vencimento plano endereco : String)
    (hu : ∃ u ∈ usuarios, u.username = username)
    (hw : ∃ c ∈ clientes, c.whatsapp = whatsapp) :
    signup hash newId usuarios username password email
        = (.conflict "Usuário já existe", usuarios)
    ∧ createCliente cid clientes nome whatsapp vencimento plano endereco
        = (.conflict "WhatsApp já cadastrado", clientes) := by
  constructor
  · obtain ⟨u, hmem, heq⟩ := hu
    have hin : u ∈ usuarios.filter (fun x => x.username == username) := by
      simp [List.mem_filter, hmem, heq]
    have hpos : 0 < (usuarios.filter (fun x => x.username == username)).length :=
      List.length_pos.mpr (List.ne_nil_of_mem hin)
    simp [signup, hpos]
  · obtain ⟨c, hmem, heq⟩ := hw
    have hany : clientes.any (fun x => x.whatsapp == whatsapp) = true := by
      rw [List.any_eq_true]
      exact ⟨c, hmem, by simp [heq]⟩
    simp [createCliente, hany]

/-- Witness for C7: duplicate username "ana" and duplicate whatsapp "5511". -/
theorem uniqueness_conflict_witness :
    signup (fun p => p) 2 [⟨1, "ana", "h", none⟩] "ana" "pw" none
        = (.conflict "Usuário já existe", [⟨1, "ana", "h", none⟩])
    ∧ createCliente 5 [⟨1, "Bia", "5511", "10", "basic", "Rua A"⟩] "Caio" "5511" "15" "top" "Rua B"
        = (.conflict "WhatsApp já cadastrado", [⟨1, "Bia", "5511", "10", "basic", "Rua A"⟩]) :=
  uniqueness_conflict _ _ _ _ _ _ _ _ _ _ _ _ _ (by decide) (by decide)

/-- C8 counterexample.  In the second application's login handler there is no
missing-field validation: a request without a username is answered 401
"Credenciais inválidas" (the username binds as SQL NULL and matches no row),
not 400. -/
theorem login2_missing_username_counterexample :
    login2 (fun _ _ => false) (fun _ _ => "t") [⟨1, "ana", "h", none⟩] (some "s")
        none (some "pw")
      = .unauthorized "Credenciais inválidas" := by decide

/-- C8 amended.  Only the first application's login handler validates the
body: there, a missing (or empty, JS-falsy) username or password is answered
400 "Usuário e senha são obrigatórios"; the second application's handler lacks
the check and answers 401 or 500 instead. -/
theorem login_missing_fields_400 (compare : String → String → Bool) (sign : String → Nat → String)
    (usuarios : List Usuario) (jwtSecret : Option String) (username password : Option String)
    (h : jsTruthy username = false ∨ jsTruthy password = false) :
    login compare sign usuarios jwtSecret username password
      = .badRequest "Usuário e senha são obrigatórios" := by
  rcases h with h | h <;> simp [login, h]

/-- Witness for C8 amended: absent username, 400 response. -/
theorem login_missing_fields_400_witness :
    login (fun _ _ => true) (fun _ _ => "t") [] (some "s") none (some "pw")
      = .badRequest "Usuário e senha são obrigatórios" :=
  login_missing_fields_400 _ _ _ _ _ _ (Or.inl (by decide))

/-- C9 counterexample.  The Auth Guard never inspects the scheme word: with
the header "Basic tok", the second word "tok" is treated as the session token,
and when it verifies the request proceeds instead of being rejected. -/
theorem basic_scheme_counterexample :
    authenticateToken (fun t => if t == "tok" then some "user1" else none) [] (some "Basic tok")
      = .proceed "user1" := by decide

/-- C9 amended.  The guard's outcome depends on the Authorization header only
through the extracted second space-separated word — the scheme word is never
checked, and "Basic tok" extracts the same token as "Bearer tok"; a request is
rejected for the header shape only when no nonempty second word exists. -/
theorem authenticateToken_scheme_ignored (verify : String → Option String)
    (revokedTokens : List String) (h1 h2 : Option String)
    (hx : extractToken h1 = extractToken h2) :
    authenticateToken verify revokedTokens h1 = authenticateToken verify revokedTokens h2
    ∧ extractToken (some "Basic tok") = extractToken (some "Bearer tok") := by
  constructor
  · unfold authenticateToken
    rw [hx]
  · decide

/-- Witness for C9 amended: "Basic tok" and "Bearer tok" get identical
outcomes. -/
theorem authenticateToken_scheme_ignored_witness :
    authenticateToken (fun _ => none) [] (some "Basic tok")
      = authenticateToken (fun _ => none) [] (some "Bearer tok") :=
  (authenticateToken_scheme_ignored (fun _ => none) [] (some "Basic tok") (some "Bearer tok")
    (by decide)).1

/-- C10.  Against the same store state, a login with an unknown username and a
login with a known username but wrong password produce identical responses:
both 401 with body "Credenciais inválidas" — the response does not reveal
whether the username exists. -/
theorem login_indistinguishable_401 (compare : String → String → Bool)
    (sign : String → Nat → String) (usuarios : List Usuario) (jwtSecret : Option String)
    (u1 p1 u2 p2 : String) (user : Usuario)
    (hu1 : u1 ≠ "") (hp1 : p1 ≠ "") (hu2 : u2 ≠ "") (hp2 : p2 ≠ "")
    (habs : usuarios.find? (fun x => x.username == u1) = none)
    (hfound : usuarios.find? (fun x => x.username == u2) = some user)
    (hwrong : compare p2 user.password_hash = false) :
    login compare sign usuarios jwtSecret (some u1) (some p1)
        = login compare sign usuarios jwtSecret (some u2) (some p2)
    ∧ login compare sign usuarios jwtSecret (some u1) (some p1)
        = .unauthorized "Credenciais inválidas" := by
  have e1 : login compare sign usuarios jwtSecret (some u1) (some p1)
      = .unauthorized "Credenciais inválidas" := by
    simp [login, jsTruthy_some_of_ne hu1, jsTruthy_some_of_ne hp1, habs]
  have e2 : login compare sign usuarios jwtSecret (some u2) (some p2)
      = .unauthorized "Credenciais inválidas" := by
    simp [login, jsTruthy_some_of_ne hu2, jsTruthy_some_of_ne hp2, hfound, hwrong]
  exact ⟨e1.trans e2.symm, e1⟩

/-- Witness for C10: unknown "bob" versus "ana" with a wrong password — the
same response. -/
theorem login_indistinguishable_401_witness :
    login (fun _ _ => false) (fun _ _ => "t") [⟨1, "ana", "h", none⟩] (some "s")
        (some "bob") (some "x")
      = login (fun _ _ => false) (fun _ _ => "t") [⟨1, "ana", "h", none⟩] (some "s")
        (some "ana") (some "y") :=
  (login_indistinguishable_401 _ _ _ _ "bob" "x" "ana" "y" ⟨1, "ana", "h", none⟩
    (by decide) (by decide) (by decide) (by decide) (by decide) (by decide) (by decide)).1

